import Mathlib

/-!
Verification of the flight-offer selection and booking-link resolution
fragment of `app.py` (AI-Travel-Agent).

The embedding models, line by line:
 * `extract_cheapest_flights` (app.py lines 156-162): reads the key
   `best_flights` from the response dict (absent, `null` or empty yield the
   empty list, via `.get("best_flights", []) or []`), sorts the offers with
   `sorted(best_flights, key=lambda x: x.get("price", float("inf")))`, takes
   the first three, and returns `[]` if anything inside the `try` raises.
 * Python `sorted` semantics: the sort is stable and ascending in the key.
   A comparison between two keys of incomparable runtime types (a number
   and a string, or `None` and anything, including `None` with `None`)
   raises `TypeError`.  CPython's sort compares, for any list with at least
   two elements, at least one pair drawn from every "boundary" of the list,
   so the call raises exactly when the key list contains two entries (at
   distinct positions) whose types are incomparable; this is the error
   condition modelled by `pairwiseComparable`.
 * `build_flight_params` (lines 132-142), the booking-resolution loop
   (lines 263-336) and the startup key check (lines 18-44) are modelled
   further below.

Machine integers do not occur; prices are JSON numbers, modelled as `ℚ`.
-/

namespace TravelAgent

/-- JSON-ish value that an offer's `price` field may hold: a number, a
non-numeric string, or JSON `null` (Python `None`).  A missing `price` key
is modelled by `Option.none` at the use site. -/
inductive PVal where
  | num (q : ℚ)
  | str (s : String)
  | null
  deriving DecidableEq, Repr

/-- One record of the `best_flights` array of the primary search response.
`price` is `none` when the `price` key is absent.  `departure_token` is
`none` when the `departure_token` key is absent (the code reads it with
`flight.get("departure_token", "")`).  `tag` abstracts the remaining
display-only fields (airline, logo, duration, legs), which the selection
and resolution logic never inspects; it keeps distinct offers
distinguishable so that stability statements have content. -/
structure Offer where
  tag : Nat
  price : Option PVal
  departure_token : Option String
  deriving DecidableEq, Repr

/-- Runtime value of the Python sort key `x.get("price", float("inf"))`:
a finite number, the `float("inf")` sentinel substituted for a missing
key, a string, or `None`. -/
inductive SKey where
  | fin (q : ℚ)
  | inf
  | str (s : String)
  | null
  deriving DecidableEq, Repr

/-- The sort key of an offer, exactly `x.get("price", float("inf"))`:
the sentinel `inf` only for a missing key; a present `null` or string
value is passed through to the comparison. -/
def sortKey (o : Offer) : SKey :=
  match o.price with
  | none => SKey.inf
  | some (PVal.num q) => SKey.fin q
  | some (PVal.str s) => SKey.str s
  | some PVal.null => SKey.null

/-- Whether Python may compare two key values with `<` without raising
`TypeError`: numbers (finite or infinite) compare with numbers, strings
with strings; `None` compares with nothing, not even with `None`. -/
def keyComparable : SKey → SKey → Bool
  | SKey.fin _, SKey.fin _ => true
  | SKey.fin _, SKey.inf => true
  | SKey.inf, SKey.fin _ => true
  | SKey.inf, SKey.inf => true
  | SKey.str _, SKey.str _ => true
  | _, _ => false

/-- Rank used to linearise the key order; within the numeric class the
finite values sit below `inf`, matching IEEE `float("inf")`. -/
def keyRank : SKey → Nat
  | SKey.fin _ => 0
  | SKey.inf => 1
  | SKey.str _ => 2
  | SKey.null => 3

/-- Python's `<=` on comparable keys (numbers by value with `inf` on top,
strings lexicographically).  On incomparable keys the value returned is an
arbitrary total extension by `keyRank`; those cases are unreachable in the
model because the sort raises first (see `py_sorted_by_price`). -/
def keyLe : SKey → SKey → Bool
  | SKey.fin a, SKey.fin b => decide (a ≤ b)
  | SKey.str a, SKey.str b => decide (a ≤ b)
  | a, b => decide (keyRank a ≤ keyRank b)

/-- Key order lifted to offers: the order used by
`sorted(best_flights, key=lambda x: x.get("price", float("inf")))`. -/
def offerLe (a b : Offer) : Prop :=
  keyLe (sortKey a) (sortKey b) = true

instance : DecidableRel offerLe :=
  fun a b => decidable_of_iff (keyLe (sortKey a) (sortKey b) = true) Iff.rfl

/-- Error condition of the Python sort: `true` iff every two entries (at
distinct positions) of the key list are type-comparable.  A singleton or
empty list never raises because no comparison is performed. -/
def pairwiseComparable : List SKey → Bool
  | [] => true
  | k :: ks => ks.all (fun j => keyComparable k j) && pairwiseComparable ks

/-- The call `sorted(best_flights, key=lambda x: x.get("price", float("inf")))`:
returns the stable ascending sort, or raises `TypeError` (modelled as
`Except.error ()`) exactly when two keys of incomparable types occur. -/
def py_sorted_by_price (l : List Offer) : Except Unit (List Offer) :=
  if pairwiseComparable (l.map sortKey) then
    Except.ok (List.insertionSort offerLe l)
  else
    Except.error ()

/-- Body of the `try` block of `extract_cheapest_flights` (app.py lines
157-160): `best_flights = flight_data.get("best_flights", []) or []` (the
input `none` covers an absent, `null` or otherwise falsy value), then
`sorted(...)[:3]`; an exception from the sort propagates. -/
def extract_cheapest_flights_body (flight_data : Option (List Offer)) :
    Except Unit (List Offer) :=
  match py_sorted_by_price (flight_data.getD []) with
  | Except.ok sorted_flights => Except.ok (sorted_flights.take 3)
  | Except.error e => Except.error e

/-- The function `extract_cheapest_flights` (app.py lines 156-162): the
`except Exception: return []` handler turns any raise of the body into the
empty list, so the function as a whole is total. -/
def extract_cheapest_flights (flight_data : Option (List Offer)) : List Offer :=
  match extract_cheapest_flights_body flight_data with
  | Except.ok l => l
  | Except.error _ => []

theorem keyLe_refl (k : SKey) : keyLe k k = true := by
  cases k <;> simp [keyLe]

theorem keyLe_total (a b : SKey) : keyLe a b = true ∨ keyLe b a = true := by
  cases a <;> cases b <;>
    simp only [keyLe, keyRank, decide_eq_true_eq] <;>
    exact le_total _ _

theorem keyLe_trans (a b c : SKey) (hab : keyLe a b = true) (hbc : keyLe b c = true) :
    keyLe a c = true := by
  cases a <;> cases b <;> cases c <;>
    simp only [keyLe, keyRank, decide_eq_true_eq] at hab hbc ⊢ <;>
    first
      | trivial
      | exact le_trans hab hbc

instance : IsTotal Offer offerLe :=
  ⟨fun a b => keyLe_total (sortKey a) (sortKey b)⟩

instance : IsTrans Offer offerLe :=
  ⟨fun _ _ _ hab hbc => keyLe_trans _ _ _ hab hbc⟩

theorem filter_orderedInsert_stable (p : Offer → Bool)
    (hp : ∀ x y, p x = true → p y = true → offerLe x y)
    (x : Offer) (l : List Offer) :
    (List.orderedInsert offerLe x l).filter p =
      if p x = true then x :: l.filter p else l.filter p := by
  induction l with
  | nil => simp [List.orderedInsert, List.filter_cons]
  | cons y ys ih =>
    by_cases hxy : offerLe x y
    · simp only [List.orderedInsert, if_pos hxy]
      by_cases hpx : p x = true <;> simp [List.filter_cons, hpx]
    · simp only [List.orderedInsert, if_neg hxy]
      by_cases hpy : p y = true
      · by_cases hpx : p x = true
        · exact absurd (hp x y hpx hpy) hxy
        · simp [List.filter_cons, hpy, hpx, ih]
      · simp [List.filter_cons, hpy, ih]

theorem filter_insertionSort_stable (p : Offer → Bool)
    (hp : ∀ x y, p x = true → p y = true → offerLe x y) (l : List Offer) :
    (List.insertionSort offerLe l).filter p = l.filter p := by
  induction l with
  | nil => rfl
  | cons x xs ih =>
    simp only [List.insertionSort]
    rw [filter_orderedInsert_stable p hp, ih]
    simp [List.filter_cons]

theorem filter_take_eq_take_filter {α : Type} (p : α → Bool) :
    ∀ (n : Nat) (l : List α), ∃ m, (l.take n).filter p = (l.filter p).take m := by
  intro n l
  induction l generalizing n with
  | nil => exact ⟨0, by simp⟩
  | cons x xs ih =>
    cases n with
    | zero => exact ⟨0, by simp⟩
    | succ n =>
      obtain ⟨m, hm⟩ := ih n
      by_cases hpx : p x = true
      · exact ⟨m + 1, by simp [List.filter_cons, hpx, hm]⟩
      · exact ⟨m, by simp [List.filter_cons, hpx, hm]⟩

theorem pairwiseComparable_of_num (S : List Offer)
    (h : ∀ o ∈ S, o.price = none ∨ ∃ q, o.price = some (PVal.num q)) :
    pairwiseComparable (S.map sortKey) = true := by
  induction S with
  | nil => rfl
  | cons x xs ih =>
    simp only [List.map, pairwiseComparable, Bool.and_eq_true]
    constructor
    · rw [List.all_eq_true]
      intro j hj
      obtain ⟨y, hy, rfl⟩ := List.mem_map.mp hj
      rcases h x (List.mem_cons_self x xs) with hx | ⟨qx, hx⟩ <;>
        rcases h y (List.mem_cons_of_mem _ hy) with hyv | ⟨qy, hyv⟩ <;>
          simp [sortKey, hx, hyv, keyComparable]
    · exact ih (fun o ho => h o (List.mem_cons_of_mem _ ho))

theorem extract_eq_of_comparable (S : List Offer)
    (hc : pairwiseComparable (S.map sortKey) = true) :
    extract_cheapest_flights (some S) = (List.insertionSort offerLe S).take 3 := by
  simp [extract_cheapest_flights, extract_cheapest_flights_body, py_sorted_by_price, hc]

/-- C1: for every sequence `S` of offer records (price numeric or key
absent, per the FlightOffer data model) the selector returns a sequence of
length `min 3 S.length`, sorted non-decreasingly by the price field,
with every offer lacking a price placed after all priced offers, and the
relative input order preserved among offers of equal or missing price
(stated as: the selected offers with any fixed price value form a prefix of
the input offers with that price value, in input order). -/
theorem cheapest_selection_correct (S : List Offer)
    (h : ∀ o ∈ S, o.price = none ∨ ∃ q, o.price = some (PVal.num q)) :
    (extract_cheapest_flights (some S)).length = min 3 S.length ∧
    List.Pairwise (fun a b => ∀ qa qb, a.price = some (PVal.num qa) →
      b.price = some (PVal.num qb) → qa ≤ qb) (extract_cheapest_flights (some S)) ∧
    List.Pairwise (fun a b => a.price = none → b.price = none)
      (extract_cheapest_flights (some S)) ∧
    ∀ p : Option PVal, ∃ m,
      (extract_cheapest_flights (some S)).filter (fun o => o.price == p) =
        (S.filter (fun o => o.price == p)).take m := by
  have hc := pairwiseComparable_of_num S h
  have he := extract_eq_of_comparable S hc
  have hsorted : List.Pairwise offerLe (extract_cheapest_flights (some S)) := by
    rw [he]
    exact List.Pairwise.sublist (List.take_sublist 3 _)
      (List.sorted_insertionSort offerLe S)
  have hmem : ∀ o ∈ extract_cheapest_flights (some S), o ∈ S := by
    intro o ho
    rw [he] at ho
    exact (List.mem_insertionSort offerLe).mp (List.take_subset 3 _ ho)
  refine ⟨?_, ?_, ?_, ?_⟩
  · rw [he, List.length_take, List.length_insertionSort]
  · refine hsorted.imp_of_mem ?_
    intro a b _ _ hab qa qb hqa hqb
    have hk : keyLe (SKey.fin qa) (SKey.fin qb) = true := by
      have := hab
      unfold offerLe at this
      rw [sortKey, sortKey, hqa, hqb] at this
      exact this
    simpa [keyLe] using hk
  · refine hsorted.imp_of_mem ?_
    intro a b _ hb hab hnone
    rcases h b (hmem b hb) with hb0 | ⟨q, hq⟩
    · exact hb0
    · exfalso
      have hk : keyLe SKey.inf (SKey.fin q) = true := by
        have := hab
        unfold offerLe at this
        rw [sortKey, sortKey, hnone, hq] at this
        exact this
      simp [keyLe, keyRank] at hk
  · intro p
    have hps : ∀ x y : Offer, (x.price == p) = true → (y.price == p) = true →
        offerLe x y := by
      intro x y hx hy
      have hx' : x.price = p := by simpa using hx
      have hy' : y.price = p := by simpa using hy
      unfold offerLe
      rw [sortKey, sortKey, hx', hy']
      exact keyLe_refl _
    obtain ⟨m, hm⟩ :=
      filter_take_eq_take_filter (fun o => o.price == p) 3 (List.insertionSort offerLe S)
    refine ⟨m, ?_⟩
    rw [he, hm, filter_insertionSort_stable _ hps]

/-- Concrete offer list used to witness C1. -/
def c1WitnessOffers : List Offer :=
  [⟨1, some (PVal.num 500), none⟩, ⟨2, none, none⟩, ⟨3, some (PVal.num 300), none⟩]

/-- Witness for C1 at a concrete three-offer input with one missing price. -/
theorem cheapest_selection_correct_witness :
    (∀ o ∈ c1WitnessOffers, o.price = none ∨ ∃ q, o.price = some (PVal.num q)) ∧
    ((extract_cheapest_flights (some c1WitnessOffers)).length = min 3 c1WitnessOffers.length ∧
     List.Pairwise (fun a b => ∀ qa qb, a.price = some (PVal.num qa) →
       b.price = some (PVal.num qb) → qa ≤ qb)
       (extract_cheapest_flights (some c1WitnessOffers)) ∧
     List.Pairwise (fun a b => a.price = none → b.price = none)
       (extract_cheapest_flights (some c1WitnessOffers)) ∧
     ∀ p : Option PVal, ∃ m,
       (extract_cheapest_flights (some c1WitnessOffers)).filter (fun o => o.price == p) =
         (c1WitnessOffers.filter (fun o => o.price == p)).take m) := by
  have hyp : ∀ o ∈ c1WitnessOffers, o.price = none ∨ ∃ q, o.price = some (PVal.num q) := by
    intro o ho
    fin_cases ho
    · exact Or.inr ⟨500, rfl⟩
    · exact Or.inl rfl
    · exact Or.inr ⟨300, rfl⟩
  exact ⟨hyp, cheapest_selection_correct c1WitnessOffers hyp⟩

/-- C2: the selector never raises.  Its `except Exception` handler is
syntactically complete, so whatever the `try` body does (an ordinary
result, or a `TypeError` from comparing a `None` or string price), the
function returns a list: the body's ordinary result is passed through, a
raise is converted to the empty list, a missing price key is tolerated by
the `float("inf")` sentinel key, and the result never exceeds three
entries. -/
theorem extract_cheapest_never_raises (flight_data : Option (List Offer)) :
    (extract_cheapest_flights flight_data).length ≤ 3 ∧
    (∀ o : Offer, o.price = none → sortKey o = SKey.inf) ∧
    (extract_cheapest_flights_body flight_data = Except.error () →
      extract_cheapest_flights flight_data = []) ∧
    (∀ l, extract_cheapest_flights_body flight_data = Except.ok l →
      extract_cheapest_flights flight_data = l) := by
  have hlen : ∀ l, extract_cheapest_flights_body flight_data = Except.ok l →
      l.length ≤ 3 := by
    intro l hl
    unfold extract_cheapest_flights_body at hl
    cases hps : py_sorted_by_price (flight_data.getD []) with
    | ok s =>
      rw [hps] at hl
      have : s.take 3 = l := by injection hl
      rw [← this]
      exact List.length_take_le 3 s
    | error e =>
      rw [hps] at hl
      exact absurd hl (by simp)
  refine ⟨?_, ?_, ?_, ?_⟩
  · cases hb : extract_cheapest_flights_body flight_data with
    | ok l =>
      have : extract_cheapest_flights flight_data = l := by
        unfold extract_cheapest_flights
        rw [hb]
      rw [this]
      exact hlen l hb
    | error e =>
      have : extract_cheapest_flights flight_data = [] := by
        unfold extract_cheapest_flights
        rw [hb]
      simp [this]
  · intro o ho
    unfold sortKey
    rw [ho]
  · intro hb
    unfold extract_cheapest_flights
    rw [hb]
  · intro l hb
    unfold extract_cheapest_flights
    rw [hb]

/-- Witness for C2: a two-offer input whose second offer carries a JSON
`null` price makes the `try` body raise (the sort compares `None` with a
number), and the function still returns the empty list. -/
theorem extract_cheapest_never_raises_witness :
    extract_cheapest_flights_body
      (some [⟨1, some (PVal.num 500), none⟩, ⟨2, some PVal.null, none⟩]) =
        Except.error () ∧
    extract_cheapest_flights
      (some [⟨1, some (PVal.num 500), none⟩, ⟨2, some PVal.null, none⟩]) = [] := by
  constructor
  · rfl
  · exact (extract_cheapest_never_raises
      (some [⟨1, some (PVal.num 500), none⟩, ⟨2, some PVal.null, none⟩])).2.2.1 rfl

/-- C3 counterexample: on the spec's four-offer scenario with prices
500, 300, 900 and `null`, the code does not return the three offers
priced 300, 500, 900: the lambda `x.get("price", float("inf"))` only
substitutes the sentinel for a missing key, so the present `null` price
reaches the sort, comparing `None` with a number raises `TypeError`, and
the handler returns the empty list. -/
theorem null_price_scenario_counterexample :
    extract_cheapest_flights (some
      [⟨1, some (PVal.num 500), none⟩, ⟨2, some (PVal.num 300), none⟩,
       ⟨3, some (PVal.num 900), none⟩, ⟨4, some PVal.null, none⟩]) = [] ∧
    extract_cheapest_flights (some
      [⟨1, some (PVal.num 500), none⟩, ⟨2, some (PVal.num 300), none⟩,
       ⟨3, some (PVal.num 900), none⟩, ⟨4, some PVal.null, none⟩]) ≠
      [⟨2, some (PVal.num 300), none⟩, ⟨1, some (PVal.num 500), none⟩,
       ⟨3, some (PVal.num 900), none⟩] := by
  have h : extract_cheapest_flights (some
      [⟨1, some (PVal.num 500), none⟩, ⟨2, some (PVal.num 300), none⟩,
       ⟨3, some (PVal.num 900), none⟩, ⟨4, some PVal.null, none⟩]) = [] := rfl
  refine ⟨h, ?_⟩
  rw [h]
  intro hcontra
  exact List.noConfusion hcontra

/-- C3 amended: with a `null` fourth price the selector returns the empty
sequence (the sort raises and the handler yields `[]`); the spec's
intended output `[300, 500, 900]` is produced only when the fourth offer
lacks the price key entirely, in which case the missing price sorts last
via the sentinel and only three of four entries are kept. -/
theorem null_price_scenario_amended :
    extract_cheapest_flights (some
      [⟨1, some (PVal.num 500), none⟩, ⟨2, some (PVal.num 300), none⟩,
       ⟨3, some (PVal.num 900), none⟩, ⟨4, some PVal.null, none⟩]) = [] ∧
    extract_cheapest_flights (some
      [⟨1, some (PVal.num 500), none⟩, ⟨2, some (PVal.num 300), none⟩,
       ⟨3, some (PVal.num 900), none⟩, ⟨4, none, none⟩]) =
      [⟨2, some (PVal.num 300), none⟩, ⟨1, some (PVal.num 500), none⟩,
       ⟨3, some (PVal.num 900), none⟩] := by
  constructor
  · rfl
  · rfl

/-- One record of the `best_flights` array of the secondary (booking)
lookup response; the code reads only `booking_token` from it, with
`.get("booking_token")`, so a missing key is `none`.  `tag` abstracts the
remaining fields. -/
structure BOffer where
  tag : Nat
  booking_token : Option String
  deriving DecidableEq, Repr

/-- Python truthiness of an optional string: `None` and the empty string
are falsy, every other string is truthy. -/
def pyStrOptTruthy (t : Option String) : Bool :=
  match t with
  | none => false
  | some s => !(s == "")

/-- Line 280 of app.py: `departure_token = flight.get("departure_token", "") or None`.
A missing key yields `""`, and `or None` collapses the empty string to
`None`, so both an absent and an empty token normalise to `none`. -/
def normalized_departure_token (flight : Offer) : Option String :=
  match flight.departure_token with
  | none => none
  | some s => if s == "" then none else some s

/-- Observable outcome of one iteration of the booking-resolution loop
(app.py lines 280-301): the resolved `booking_options` value, whether the
secondary `GoogleSearch` call was issued, and, when the `try` block
raised, the 1-based display position named by the `st.warning` message
(`"Could not fetch booking link for flight #..."`). -/
structure BookingResult where
  booking_options : Option String
  lookup_called : Bool
  warned : Option Nat
  deriving DecidableEq, Repr

/-- Lines 280-301 of app.py for the offer at 0-based index `idx`.
`lookup` is the observable behaviour of the whole secondary attempt
(`GoogleSearch(params_with_token).get_dict()` plus the parsing of its
`best_flights` field): `Except.error ()` when any part of the `try` body
raises, `Except.ok best_flights_list` otherwise.  With a falsy token no
call is made and `booking_options` stays `None`; with a truthy token the
entry at `idx` is used when the list is long enough, else the first entry
when the list is non-empty, else `booking_options` stays `None`; a raise
is caught, warns with the 1-based position `idx + 1`, and leaves
`booking_options` as `None`. -/
def resolve_booking (flight : Offer) (idx : Nat)
    (lookup : Except Unit (List BOffer)) : BookingResult :=
  match normalized_departure_token flight with
  | none => ⟨none, false, none⟩
  | some _ =>
    match lookup with
    | Except.error _ => ⟨none, true, some (idx + 1)⟩
    | Except.ok best_flights_list =>
      match best_flights_list[idx]? with
      | some entry => ⟨entry.booking_token, true, none⟩
      | none =>
        match best_flights_list with
        | [] => ⟨none, true, none⟩
        | first :: _ => ⟨first.booking_token, true, none⟩

/-- The resolution loop `for idx, flight in enumerate(cheapest_flights)`
(app.py line 266): each offer is processed in order, and each iteration
confines its own failure via the per-iteration `try`. -/
def booking_results (flights : List Offer)
    (lookup : Nat → Except Unit (List BOffer)) : List BookingResult :=
  flights.enum.map (fun p => resolve_booking p.2 p.1 (lookup p.1))

/-- Line 303 of app.py:
`booking_link = f"https://www.google.com/travel/flights?tfs={booking_options}" if booking_options else "#"`. -/
def booking_link (booking_options : Option String) : String :=
  if pyStrOptTruthy booking_options then
    "https://www.google.com/travel/flights?tfs=" ++ booking_options.getD ""
  else "#"

/-- Line 332 of app.py: the button label
`'🔗 Book Now' if booking_options else '🔗 No booking link available'`. -/
def booking_label (booking_options : Option String) : String :=
  if pyStrOptTruthy booking_options then "🔗 Book Now"
  else "🔗 No booking link available"

/-- C4: for every offer carrying a (truthy) continuation token and every
secondary-lookup response list, the resolver takes the `booking_token` of
the entry at the offer's index when present, else of the first entry when
the list is non-empty, else yields an absent reference. -/
theorem resolve_booking_token_extraction (flight : Offer) (idx : Nat)
    (bl : List BOffer)
    (htok : (normalized_departure_token flight).isSome = true) :
    (∀ entry, bl[idx]? = some entry →
      resolve_booking flight idx (Except.ok bl) = ⟨entry.booking_token, true, none⟩) ∧
    (bl[idx]? = none → ∀ first rest, bl = first :: rest →
      resolve_booking flight idx (Except.ok bl) = ⟨first.booking_token, true, none⟩) ∧
    (bl = [] → resolve_booking flight idx (Except.ok bl) = ⟨none, true, none⟩) := by
  obtain ⟨s, hs⟩ := Option.isSome_iff_exists.mp htok
  refine ⟨?_, ?_, ?_⟩
  · intro entry hentry
    unfold resolve_booking
    rw [hs]
    dsimp only
    rw [hentry]
  · intro hnone first rest hbl
    subst hbl
    unfold resolve_booking
    rw [hs]
    dsimp only
    rw [hnone]
  · intro hbl
    subst hbl
    unfold resolve_booking
    rw [hs]
    dsimp only
    simp

/-- Witness for C4: the spec scenario with token `"abc"`, secondary
response `[⟨booking_token := "T1"⟩]` and offer index 0, resolving to
`"T1"`. -/
theorem resolve_booking_token_extraction_witness :
    (normalized_departure_token ⟨1, none, some "abc"⟩).isSome = true ∧
    resolve_booking ⟨1, none, some "abc"⟩ 0 (Except.ok [⟨1, some "T1"⟩]) =
      ⟨some "T1", true, none⟩ := by
  have h : (normalized_departure_token ⟨1, none, some "abc"⟩).isSome = true := by decide
  exact ⟨h, (resolve_booking_token_extraction ⟨1, none, some "abc"⟩ 0
    [⟨1, some "T1"⟩] h).1 ⟨1, some "T1"⟩ rfl⟩

/-- C5: an offer whose secondary lookup raises is resolved to an absent
reference plus a warning naming its 1-based display position, and the
loop still produces one result per offer, each depending only on its own
offer and its own lookup, so one failure never aborts or perturbs the
others. -/
theorem booking_failure_isolated (flights : List Offer)
    (lookup : Nat → Except Unit (List BOffer)) (i : Nat) (f : Offer)
    (hf : flights[i]? = some f)
    (htok : (normalized_departure_token f).isSome = true)
    (hfail : lookup i = Except.error ()) :
    (booking_results flights lookup)[i]? = some ⟨none, true, some (i + 1)⟩ ∧
    (booking_results flights lookup).length = flights.length ∧
    (∀ j g, flights[j]? = some g →
      (booking_results flights lookup)[j]? =
        some (resolve_booking g j (lookup j))) := by
  have hidx : ∀ j, (booking_results flights lookup)[j]? =
      (flights[j]?).map (fun g => resolve_booking g j (lookup j)) := by
    intro j
    unfold booking_results
    rw [List.getElem?_map, List.getElem?_enum]
    cases flights[j]? <;> rfl
  refine ⟨?_, ?_, ?_⟩
  · rw [hidx i, hf]
    obtain ⟨s, hs⟩ := Option.isSome_iff_exists.mp htok
    dsimp only [Option.map]
    unfold resolve_booking
    rw [hs, hfail]
  · unfold booking_results
    rw [List.length_map, List.enum_length]
  · intro j g hg
    rw [hidx j, hg]
    rfl

/-- Witness for C5: a single offer with token `"abc"` whose lookup fails;
the batch still yields one (absent, warned) result. -/
theorem booking_failure_isolated_witness :
    ([⟨1, none, some "abc"⟩] : List Offer)[0]? = some ⟨1, none, some "abc"⟩ ∧
    (normalized_departure_token ⟨1, none, some "abc"⟩).isSome = true ∧
    (fun _ : Nat => (Except.error () : Except Unit (List BOffer))) 0 =
      Except.error () ∧
    ((booking_results [⟨1, none, some "abc"⟩] (fun _ => Except.error ()))[0]? =
        some ⟨none, true, some 1⟩ ∧
      (booking_results [⟨1, none, some "abc"⟩] (fun _ => Except.error ())).length =
        ([⟨1, none, some "abc"⟩] : List Offer).length ∧
      (∀ j g, ([⟨1, none, some "abc"⟩] : List Offer)[j]? = some g →
        (booking_results [⟨1, none, some "abc"⟩] (fun _ => Except.error ()))[j]? =
          some (resolve_booking g j ((fun _ => Except.error ()) j)))) := by
  refine ⟨rfl, by decide, rfl, ?_⟩
  exact booking_failure_isolated [⟨1, none, some "abc"⟩] (fun _ => Except.error ())
    0 ⟨1, none, some "abc"⟩ rfl (by decide) rfl

/-- C6: an offer with no `departure_token` key resolves immediately to an
absent reference, with no secondary call issued, and renders with the
placeholder link and label. -/
theorem resolve_booking_no_token (flight : Offer) (idx : Nat)
    (lookup : Except Unit (List BOffer))
    (h : flight.departure_token = none) :
    resolve_booking flight idx lookup = ⟨none, false, none⟩ ∧
    booking_link (resolve_booking flight idx lookup).booking_options = "#" ∧
    booking_label (resolve_booking flight idx lookup).booking_options =
      "🔗 No booking link available" := by
  have hn : normalized_departure_token flight = none := by
    unfold normalized_departure_token
    rw [h]
  have hr : resolve_booking flight idx lookup = ⟨none, false, none⟩ := by
    unfold resolve_booking
    rw [hn]
  exact ⟨hr, by rw [hr]; rfl, by rw [hr]; rfl⟩

/-- Witness for C6 at a concrete tokenless offer. -/
theorem resolve_booking_no_token_witness :
    (⟨1, none, none⟩ : Offer).departure_token = none ∧
    resolve_booking ⟨1, none, none⟩ 0 (Except.ok [⟨1, some "T1"⟩]) =
      ⟨none, false, none⟩ ∧
    booking_link (resolve_booking ⟨1, none, none⟩ 0
      (Except.ok [⟨1, some "T1"⟩])).booking_options = "#" ∧
    booking_label (resolve_booking ⟨1, none, none⟩ 0
      (Except.ok [⟨1, some "T1"⟩])).booking_options =
      "🔗 No booking link available" := by
  have h := resolve_booking_no_token ⟨1, none, none⟩ 0 (Except.ok [⟨1, some "T1"⟩]) rfl
  exact ⟨rfl, h.1, h.2.1, h.2.2⟩

/-- C10 (implicit): a `departure_token` present but equal to the empty
string is normalised to absent by `or None`, behaves exactly like a
missing token (no secondary lookup, placeholder link and label). -/
theorem empty_token_treated_as_absent (flight : Offer) (idx : Nat)
    (lookup : Except Unit (List BOffer))
    (h : flight.departure_token = some "") :
    normalized_departure_token flight = none ∧
    resolve_booking flight idx lookup =
      resolve_booking ⟨flight.tag, flight.price, none⟩ idx lookup ∧
    resolve_booking flight idx lookup = ⟨none, false, none⟩ ∧
    booking_link (resolve_booking flight idx lookup).booking_options = "#" ∧
    booking_label (resolve_booking flight idx lookup).booking_options =
      "🔗 No booking link available" := by
  have hn : normalized_departure_token flight = none := by
    unfold normalized_departure_token
    rw [h]
    rfl
  have hr : resolve_booking flight idx lookup = ⟨none, false, none⟩ := by
    unfold resolve_booking
    rw [hn]
  have hr2 : resolve_booking ⟨flight.tag, flight.price, none⟩ idx lookup =
      ⟨none, false, none⟩ := by
    unfold resolve_booking normalized_departure_token
    rfl
  exact ⟨hn, by rw [hr, hr2], hr, by rw [hr]; rfl, by rw [hr]; rfl⟩

/-- Witness for C10: an empty-string token with booking data available is
still skipped. -/
theorem empty_token_treated_as_absent_witness :
    (⟨7, none, some ""⟩ : Offer).departure_token = some "" ∧
    normalized_departure_token ⟨7, none, some ""⟩ = none ∧
    resolve_booking ⟨7, none, some ""⟩ 2 (Except.ok [⟨1, some "T1"⟩]) =
      resolve_booking ⟨7, none, none⟩ 2 (Except.ok [⟨1, some "T1"⟩]) ∧
    resolve_booking ⟨7, none, some ""⟩ 2 (Except.ok [⟨1, some "T1"⟩]) =
      ⟨none, false, none⟩ := by
  have h := empty_token_treated_as_absent ⟨7, none, some ""⟩ 2
    (Except.ok [⟨1, some "T1"⟩]) rfl
  exact ⟨rfl, h.1, h.2.1, h.2.2.1⟩

/-- C7 counterexample: a booking reference can be resolved to a present
but empty token (the secondary response's `booking_token` being `""`),
and the rendered link is then `"#"`, not the URL template with the token
substituted, because line 303 tests Python truthiness rather than
presence. -/
theorem booking_link_template_counterexample :
    (resolve_booking ⟨1, none, some "abc"⟩ 0
        (Except.ok [⟨1, some ""⟩])).booking_options = some "" ∧
    booking_link (some "") = "#" ∧
    booking_link (some "") ≠ "https://www.google.com/travel/flights?tfs=" := by
  refine ⟨rfl, rfl, ?_⟩
  intro h
  exact absurd h (by decide)

/-- C7 amended: a reference that is absent or empty (Python-falsy) renders
exactly `"#"` with the no-link label; a non-empty reference renders the
fixed URL template with the token substituted, with the active label; no
other outcome exists. -/
theorem booking_link_spec (t : Option String) :
    (pyStrOptTruthy t = false ↔ t = none ∨ t = some "") ∧
    (pyStrOptTruthy t = true →
      booking_link t = "https://www.google.com/travel/flights?tfs=" ++ t.getD "" ∧
      booking_label t = "🔗 Book Now") ∧
    (pyStrOptTruthy t = false →
      booking_link t = "#" ∧
      booking_label t = "🔗 No booking link available") := by
  refine ⟨?_, ?_, ?_⟩
  · cases t with
    | none => simp [pyStrOptTruthy]
    | some s => simp [pyStrOptTruthy]
  · intro ht
    constructor <;> simp [booking_link, booking_label, ht]
  · intro ht
    constructor <;> simp [booking_link, booking_label, ht]

/-- Witness for C7 (amended) at the token `"T1"`: the spec's rendered-link
scenario. -/
theorem booking_link_spec_witness :
    pyStrOptTruthy (some "T1") = true ∧
    booking_link (some "T1") = "https://www.google.com/travel/flights?tfs=" ++ "T1" ∧
    booking_label (some "T1") = "🔗 Book Now" := by
  have h := (booking_link_spec (some "T1")).2.1 (by decide)
  exact ⟨by decide, h.1, h.2⟩

/-- A Python `datetime.date` as produced by the Streamlit date inputs.
The stdlib enforces `1 ≤ year ≤ 9999`, `1 ≤ month ≤ 12`, `1 ≤ day ≤ 31`
(`PyDate.Valid` below); the model is faithful on that domain. -/
structure PyDate where
  year : Nat
  month : Nat
  day : Nat
  deriving DecidableEq, Repr

/-- Invariants of a constructible Python `datetime.date`. -/
def PyDate.Valid (d : PyDate) : Prop :=
  1 ≤ d.year ∧ d.year ≤ 9999 ∧ 1 ≤ d.month ∧ d.month ≤ 12 ∧ 1 ≤ d.day ∧ d.day ≤ 31

/-- Decimal digit character for `n < 10` (code point 48 + n). -/
def digitChar (n : Nat) : Char :=
  Char.ofNat (48 + n)

/-- Python `str(date)`, i.e. `date.isoformat()`: the year zero-padded to
four digits, month and day to two, separated by hyphens (the C-style
format `%04d-%02d-%02d`), written out digit by digit.  For years up to
9999 (every constructible `date`) this is exactly CPython's output. -/
def PyDate.isoformat (d : PyDate) : String :=
  String.mk
    [digitChar (d.year / 1000 % 10), digitChar (d.year / 100 % 10),
     digitChar (d.year / 10 % 10), digitChar (d.year % 10), '-',
     digitChar (d.month / 10 % 10), digitChar (d.month % 10), '-',
     digitChar (d.day / 10 % 10), digitChar (d.day % 10)]

/-- The dict literal returned by `build_flight_params` (app.py lines
132-142), one field per key in source order.  The language parameter is
the `hl` key (the spec calls this field "locale"); `serpapi_key` models
the module-global `SERPAPI_KEY` read by the function. -/
structure FlightParams where
  engine : String
  departure_id : String
  arrival_id : String
  outbound_date : String
  return_date : String
  currency : String
  hl : String
  api_key : String
  deriving DecidableEq, Repr

/-- The function `build_flight_params(src, dst, outbound, inbound)`
(app.py lines 132-142): a pure dict construction, with the two dates
coerced by `str(...)`, no validation and no other effect. -/
def build_flight_params (serpapi_key : String) (src dst : String)
    (outbound inbound : PyDate) : FlightParams :=
  { engine := "google_flights"
    departure_id := src
    arrival_id := dst
    outbound_date := outbound.isoformat
    return_date := inbound.isoformat
    currency := "INR"
    hl := "en"
    api_key := serpapi_key }

/-- Shape check for a canonical `YYYY-MM-DD` string: exactly ten
characters, hyphens at positions 4 and 7, decimal digits elsewhere. -/
def isIsoDateShape (s : String) : Bool :=
  match s.data with
  | [y1, y2, y3, y4, h1, m1, m2, h2, d1, d2] =>
    y1.isDigit && y2.isDigit && y3.isDigit && y4.isDigit && (h1 == '-') &&
      m1.isDigit && m2.isDigit && (h2 == '-') && d1.isDigit && d2.isDigit
  | _ => false

theorem digitChar_mod_isDigit (n : Nat) : (digitChar (n % 10)).isDigit = true := by
  have h : n % 10 < 10 := Nat.mod_lt n (by norm_num)
  generalize n % 10 = m at h
  interval_cases m <;> decide

theorem isoformat_shape (d : PyDate) : isIsoDateShape d.isoformat = true := by
  simp [isIsoDateShape, PyDate.isoformat, digitChar_mod_isDigit]

/-- C8: the flight query builder returns exactly the field set of the
source dict literal, with `engine`, `currency` and language fixed to
`"google_flights"`, `"INR"` and `"en"`, the identifiers and key passed
through, and both dates coerced to the canonical `YYYY-MM-DD` textual
form.  Purity and absence of validation are inherent to the embedding:
the function is a total Lean function of its arguments alone. -/
theorem build_flight_params_spec (serpapi_key src dst : String)
    (outbound inbound : PyDate)
    (_ho : outbound.Valid) (_hi : inbound.Valid) :
    build_flight_params serpapi_key src dst outbound inbound =
      { engine := "google_flights", departure_id := src, arrival_id := dst,
        outbound_date := outbound.isoformat, return_date := inbound.isoformat,
        currency := "INR", hl := "en", api_key := serpapi_key } ∧
    isIsoDateShape outbound.isoformat = true ∧
    isIsoDateShape inbound.isoformat = true :=
  ⟨rfl, isoformat_shape outbound, isoformat_shape inbound⟩

/-- Witness for C8 at a concrete query (BOM to DEL, March 2026 dates). -/
theorem build_flight_params_spec_witness :
    (PyDate.mk 2026 3 7).Valid ∧ (PyDate.mk 2026 3 12).Valid ∧
    (build_flight_params "key" "BOM" "DEL" ⟨2026, 3, 7⟩ ⟨2026, 3, 12⟩ =
      { engine := "google_flights", departure_id := "BOM", arrival_id := "DEL",
        outbound_date := (PyDate.mk 2026 3 7).isoformat,
        return_date := (PyDate.mk 2026 3 12).isoformat,
        currency := "INR", hl := "en", api_key := "key" } ∧
     isIsoDateShape (PyDate.mk 2026 3 7).isoformat = true ∧
     isIsoDateShape (PyDate.mk 2026 3 12).isoformat = true) ∧
    (PyDate.mk 2026 3 7).isoformat = "2026-03-07" := by
  have h1 : (PyDate.mk 2026 3 7).Valid := by
    refine ⟨?_, ?_, ?_, ?_, ?_, ?_⟩ <;> norm_num
  have h2 : (PyDate.mk 2026 3 12).Valid := by
    refine ⟨?_, ?_, ?_, ?_, ?_, ?_⟩ <;> norm_num
  exact ⟨h1, h2,
    build_flight_params_spec "key" "BOM" "DEL" ⟨2026, 3, 7⟩ ⟨2026, 3, 12⟩ h1 h2,
    by decide⟩

/-- Python truthiness of `os.getenv(...)`: `None` (variable unset) and the
empty string are falsy. -/
def env_truthy (v : Option String) : Bool :=
  match v with
  | none => false
  | some s => !(s == "")

/-- Line 31 of app.py: `if not SERPAPI_KEY or not GOOGLE_API_KEY:`, the
condition under which the instructional message is rendered and
`st.stop()` is called. -/
def startup_halts (serpapi_key google_api_key : Option String) : Bool :=
  !env_truthy serpapi_key || !env_truthy google_api_key

/-- Straight-line script model around the startup check (app.py lines
31-44): `st.stop()` raises a Streamlit control-flow exception, so when the
halt condition holds, none of the actions of the rest of the script (the
flight search, the booking lookups, the agent calls) is performed; when it
does not hold, the script body runs unchanged. -/
def app_actions (serpapi_key google_api_key : Option String)
    (main_actions : List String) : List String :=
  if startup_halts serpapi_key google_api_key then [] else main_actions

/-- C9 counterexample: both secrets present (the variables are set) but
the first set to the empty string; the claim says startup proceeds, yet
the code halts, because `not SERPAPI_KEY` tests truthiness, and the empty
string is falsy. -/
theorem startup_present_empty_counterexample :
    (some "").isSome = true ∧ (some "k").isSome = true ∧
    startup_halts (some "") (some "k") = true ∧
    app_actions (some "") (some "k") ["flight_search"] = [] := by
  decide

/-- C9 amended: if either secret is unset or set to the empty string,
execution halts before any flight search, booking resolution or agent
call is performed; if both are set to non-empty values, startup proceeds
and the script body runs. -/
theorem startup_check_spec (serp google : Option String) (acts : List String) :
    (serp = none ∨ google = none → startup_halts serp google = true) ∧
    (startup_halts serp google = true → app_actions serp google acts = []) ∧
    (env_truthy serp = true → env_truthy google = true →
      startup_halts serp google = false ∧ app_actions serp google acts = acts) := by
  refine ⟨?_, ?_, ?_⟩
  · rintro (h | h) <;> subst h <;> simp [startup_halts, env_truthy]
  · intro h
    simp [app_actions, h]
  · intro hs hg
    have hh : startup_halts serp google = false := by
      simp [startup_halts, hs, hg]
    exact ⟨hh, by simp [app_actions, hh]⟩

/-- Witness for C9 (amended): unset first secret halts with no actions;
two non-empty secrets proceed. -/
theorem startup_check_spec_witness :
    (startup_halts none (some "g") = true ∧
      app_actions none (some "g") ["flight_search"] = []) ∧
    (env_truthy (some "s") = true ∧ env_truthy (some "g") = true ∧
      startup_halts (some "s") (some "g") = false ∧
      app_actions (some "s") (some "g") ["flight_search"] = ["flight_search"]) := by
  constructor
  · exact ⟨(startup_check_spec none (some "g") ["flight_search"]).1 (Or.inl rfl),
      (startup_check_spec none (some "g") ["flight_search"]).2.1
        ((startup_check_spec none (some "g") ["flight_search"]).1 (Or.inl rfl))⟩
  · refine ⟨by decide, by decide, ?_⟩
    exact (startup_check_spec (some "s") (some "g") ["flight_search"]).2.2
      (by decide) (by decide)

end TravelAgent
